import Mathlib

/-!
Shallow embedding of `export.py` from stadt-karlsruhe/budget-export.

The program normalizes municipal budget tables (grids of cell text) into a
hierarchical record model (Positions with child records, grouped into
Projects for the investment layout), tracks heading scope
(Teilhaushalt / Produktbereich / Produktgruppe), and flattens the model
back into CSV rows.

Modelling conventions:
- Python strings are Lean `String`; all string helpers are implemented on
  `List Char` so that concrete evaluation reduces well.
- Python exceptions are an explicit `PyErr` error type threaded through
  `Except`; fallible code returns `Except PyErr _`.
- `Decimal` amounts produced by `parse_amount` always carry exactly two
  decimal places, so they are represented exactly as an integer number of
  cents (`Int`), never as floating point.
- Python `None` is `Option.none`; a dictionary key that may be missing is
  an outer `Option` (e.g. `kontogruppe : Option (Option String)`: `none`
  means no key, `some none` means the key holds `None`,
  `some (some s)` means the key holds the text `s`).
- Python truthiness of the relevant values (`None`, `0`, `""` are falsy)
  is made explicit by `truthyN` / `truthyS` / `truthyKG` / `fieldTruthy`.
- Mutation with aliasing (the current position object is also the last
  element of the table / of a project's position list) is modelled by
  explicit state: the base-table loop carries the current position
  separately (`Option Pos`), the investment-table loop carries the index
  of the project that owns the current position.
-/

namespace BudgetExport

/-- Errors corresponding to the Python exceptions that the source can raise. -/
inductive PyErr where
  | valueError
  | indexError
  | attributeError
  | assertionError
  | invalidOperation
  deriving DecidableEq, Repr

/-- Rebuild a string from a list of characters. -/
def ofChars (l : List Char) : String := ⟨l⟩

/-- Python `str.strip()` on the character list level. -/
def stripChars (l : List Char) : List Char :=
  ((l.dropWhile Char.isWhitespace).reverse.dropWhile Char.isWhitespace).reverse

/-- Python `str.strip()`. -/
def pyStrip (s : String) : String := ofChars (stripChars s.data)

/-- Whitespace tokenizer: the list of maximal non-whitespace runs.
This is the behaviour of Python `str.split()` with no separator
(used by `cell.split()` in `_parse_value_headers`). -/
def wsTokensAux : List Char → List Char → List (List Char)
  | [], acc => if acc = [] then [] else [acc.reverse]
  | c :: cs, acc =>
    if c.isWhitespace then
      if acc = [] then wsTokensAux cs [] else acc.reverse :: wsTokensAux cs []
    else wsTokensAux cs (c :: acc)

/-- Python `s.split()` (split at whitespace, dropping empty tokens). -/
def pySplitWs (s : String) : List String :=
  (wsTokensAux s.data []).map ofChars

/-- Lines 63-74 of export.py: `clean_string` replaces adjacent whitespace by a
single space and strips; equivalently the whitespace tokens joined by
single spaces. -/
def clean_string (s : String) : String :=
  ofChars (((wsTokensAux s.data []).intersperse [' ']).flatten)

/-- Lines 55-64 of export.py: `split(s, 1)` = `re.split(r'\s+', s.strip(), 1)`:
strip, then split at the first maximal whitespace run.  An empty stripped
string yields `[""]` (as `re.split` does). -/
def split1 (s : String) : List String :=
  let l := stripChars s.data
  if l = [] then [""]
  else
    let a := l.takeWhile (fun c => ¬ c.isWhitespace)
    let b := l.dropWhile (fun c => ¬ c.isWhitespace)
    if b = [] then [ofChars a] else [ofChars a, ofChars (b.dropWhile Char.isWhitespace)]

/-- Python `s.split(sep)` for a single separator character, keeping empty
pieces (`"".split(',') = [""]`). -/
def splitOnChar (sep : Char) : List Char → List (List Char)
  | [] => [[]]
  | c :: cs =>
    if c = sep then [] :: splitOnChar sep cs
    else
      match splitOnChar sep cs with
      | t :: ts => (c :: t) :: ts
      | [] => [[c]]

/-- Python `s.split(':', 1)`: split at the first colon only; no colon
yields a single-element list. -/
def splitColon1 (s : String) : List String :=
  let l := s.data
  if ':' ∈ l then
    [ofChars (l.takeWhile (fun c => c ≠ ':')),
     ofChars ((l.dropWhile (fun c => c ≠ ':')).drop 1)]
  else [s]

/-- Numeric value of a list of decimal digit characters (most significant
first). -/
def digitsToNat (l : List Char) : Nat :=
  l.foldl (fun n c => 10 * n + (c.toNat - '0'.toNat)) 0

/-- Core of Python 2 `int(s)`: strip whitespace, optional sign, then a
nonempty run of decimal digits; anything else is rejected (`none`). -/
def pyIntCore (s : String) : Option Int :=
  let l := stripChars s.data
  let sgnDigits : Int × List Char :=
    match l with
    | '-' :: rest => (-1, rest)
    | '+' :: rest => (1, rest)
    | _ => (1, l)
  if sgnDigits.2 ≠ [] ∧ sgnDigits.2.all Char.isDigit then
    some (sgnDigits.1 * (digitsToNat sgnDigits.2 : Int))
  else none

/-- Python 2 `int(s)`: raises `ValueError` on text that is not an integer. -/
def pyInt (s : String) : Except PyErr Int :=
  match pyIntCore s with
  | some n => .ok n
  | none => .error .valueError

/-- Lines 88-94 of export.py: `parse_int` returns `None` for the empty string and
otherwise defers to `int`, whose `ValueError` propagates. -/
def parse_int (s : String) : Except PyErr (Option Int) :=
  if s = "" then .ok none else (pyInt s).map some

/-- Python `f.ljust(2, '0')[:2]` applied to the fractional part in
`parse_amount`. -/
def fracAdjust (f : List Char) : List Char :=
  (f ++ List.replicate (2 - f.length) '0').take 2

/-- Value (in cents) of `Decimal(intPart ++ "." ++ frac)` for the shapes
`parse_amount` can build: an optional sign, a possibly empty digit run
before the point, and a two-digit fraction.  Any other character makes
the `Decimal` constructor raise `InvalidOperation`. -/
def decimalVal (p f : List Char) : Except PyErr Int :=
  let sgnDigits : Int × List Char :=
    match p with
    | '-' :: rest => (-1, rest)
    | '+' :: rest => (1, rest)
    | _ => (1, p)
  if sgnDigits.2.all Char.isDigit ∧ f.all Char.isDigit then
    .ok (sgnDigits.1 * ((digitsToNat sgnDigits.2 * 100 + digitsToNat f : Nat) : Int))
  else .error .invalidOperation

/-- Lines 77-85 of export.py: `parse_amount` parses a German amount string by
deleting all dots, splitting at commas, padding/truncating the fraction
to two digits, and reading the result as an exact decimal.  The result
always has exactly two decimal places, so it is represented exactly as an
integer number of cents. -/
def parse_amount (s : String) : Except PyErr Int :=
  let t := s.data.filter (fun c => c ≠ '.')
  match splitOnChar ',' t with
  | [p] => decimalVal p ['0', '0']
  | [p, f] => decimalVal p (fracAdjust f)
  | _ => .error .invalidOperation

/-- Lowercasing as used by `table_from_data` (`.lower()`); ASCII letters
plus the German umlauts that can occur in the fixed keywords.  (Python's
`str.lower` covers all of Unicode; only these characters matter for the
keyword search.) -/
def lowerChar (c : Char) : Char :=
  if 'A' ≤ c ∧ c ≤ 'Z' then Char.ofNat (c.toNat + 32)
  else if c = 'Ä' then 'ä'
  else if c = 'Ö' then 'ö'
  else if c = 'Ü' then 'ü'
  else c

/-- Python `s.lower()` (restricted as documented at `lowerChar`). -/
def pyLower (s : String) : String := ofChars (s.data.map lowerChar)

/-- Contiguous-sublist check on character lists. -/
def infixCheck (needle : List Char) : List Char → Bool
  | [] => needle.isEmpty
  | c :: cs => needle.isPrefixOf (c :: cs) || infixCheck needle cs

/-- Python `needle in hay` for strings (substring containment). -/
def pyIn (needle hay : String) : Bool := infixCheck needle.data hay.data

/-! ### Data model -/

/-- A table row: the list of (already trimmed) cell texts. -/
abbrev Row := List String

/-- A table: rows of cells. -/
abbrev Grid := List Row

/-- One entry of a record's `values` list: the value column's type text,
its year (as returned by `parse_int`), and the parsed amount in cents. -/
structure VEntry where
  vtype : String
  year : Option Int
  amount : Int
  deriving DecidableEq, Repr

/-- A parsed record (one data row).  Optional-key fields use an outer
`Option` for "the dictionary has no such key":
`kontogruppe = none` means no key, `some none` means the key holds `None`
(the back-filled absent marker), `some (some s)` the raw cell text.
`sign = none` means the key was popped (investment-layout children).
`project_id` / `project_title` are only set by the investment layout's
CSV-record synthesis. -/
structure Rec where
  number : Option Int
  kontogruppe : Option (Option String)
  sign : Option String
  title : String
  project_id : Option String
  project_title : Option String
  values : List VEntry
  deriving DecidableEq, Repr

/-- A Position: a record together with its ordered children. -/
structure Pos where
  record : Rec
  children : List Rec
  deriving DecidableEq, Repr

/-- A Project of the investment-overview layout. -/
structure Project where
  id : String
  title : String
  positions : List Pos
  deriving DecidableEq, Repr

/-- Python truthiness of an int-or-None value (`None` and `0` are falsy). -/
def truthyN : Option Int → Bool
  | none => false
  | some n => decide (n ≠ 0)

/-- Python truthiness of a str-or-missing value (missing and `""` falsy). -/
def truthyS : Option String → Bool
  | none => false
  | some s => decide (s ≠ "")

/-- Python truthiness of the `kontogruppe` entry (missing key, `None` and
`""` are falsy). -/
def truthyKG : Option (Option String) → Bool
  | some (some s) => decide (s ≠ "")
  | _ => false

/-- Python `row[i]`: `IndexError` when the index is out of range. -/
def cellAt (row : Row) (i : Nat) : Except PyErr String :=
  match row.get? i with
  | some c => .ok c
  | none => .error .indexError

/-! ### Header classification (`_parse_value_headers`) -/

/-- A value column: its column index, its (normalized) value-type text and
the parsed year. -/
abbrev VCol := Nat × String × Option Int

/-- Decision of `_parse_value_headers` for a single header cell at index
`i`: the cell qualifies as a value column iff it splits on whitespace
into exactly three tokens, the third is `"EUR"`, and the second parses as
an integer; a second token that is not an integer is silently skipped. -/
def qualifyCell (i : Nat) (cell : String) : Option VCol :=
  match pySplitWs cell with
  | [a, b, c] =>
    if c = "EUR" then
      match parse_int b with
      | .ok y => some (i, clean_string a, y)
      | .error _ => none
    else none
  | _ => none

/-- Loop of `_parse_value_headers` over the header cells starting at
column index `i`. -/
def parseValueHeadersAux : Nat → List String → List VCol
  | _, [] => []
  | i, cell :: rest =>
    match qualifyCell i cell with
    | some v => v :: parseValueHeadersAux (i + 1) rest
    | none => parseValueHeadersAux (i + 1) rest

/-- Lines 143-154 of export.py: `_parse_value_headers` inspects the header
cells after the `numMeta` meta columns. -/
def parseValueHeaders (numMeta : Nat) (header : Row) : List VCol :=
  parseValueHeadersAux numMeta (header.drop numMeta)

/-! ### Row parsing (`_parse_row`, `_does_row_have_values`) -/

/-- Value-column portion of `_parse_row`: one `values` entry per value
column, in column order; the amount cell is parsed by `parse_amount`. -/
def parseValues (vcols : List VCol) (row : Row) : Except PyErr (List VEntry) :=
  match vcols with
  | [] => .ok []
  | (i, ty, y) :: rest =>
    match cellAt row i with
    | .error e => .error e
    | .ok c =>
      match parse_amount c with
      | .error e => .error e
      | .ok a =>
        match parseValues rest row with
        | .error e => .error e
        | .ok vs => .ok ({ vtype := ty, year := y, amount := a } :: vs)

/-- Lines 211-218 of export.py: `_does_row_have_values` is true iff some
value column holds a nonempty cell. -/
def doesRowHaveValues (vcols : List VCol) (row : Row) : Except PyErr Bool :=
  match vcols with
  | [] => .ok false
  | (i, _, _) :: rest =>
    match cellAt row i with
    | .error e => .error e
    | .ok c => if c ≠ "" then .ok true else doesRowHaveValues rest row

/-- Lines 160-179 of export.py, `Table._parse_row`, for the meta-column
maps actually used: `number` (via `parse_int`) at column 0, optionally
`kontogruppe` (no transform, i.e. raw text) at column 1 when `kg` is
true, then `sign` (raw text) and `title` (via `clean_string`), then the
value columns.  Errors of `parse_int` / `parse_amount` / indexing
propagate. -/
def parseRowMeta (kg : Bool) (vcols : List VCol) (row : Row) : Except PyErr Rec :=
  match cellAt row 0 with
  | .error e => .error e
  | .ok c0 =>
    match parse_int c0 with
    | .error e => .error e
    | .ok number =>
      match (if kg then (cellAt row 1).map (fun c => some (some c)) else .ok none) with
      | .error e => .error e
      | .ok kgval =>
        let off := if kg then 1 else 0
        match cellAt row (1 + off) with
        | .error e => .error e
        | .ok s =>
          match cellAt row (2 + off) with
          | .error e => .error e
          | .ok t =>
            match parseValues vcols row with
            | .error e => .error e
            | .ok vals =>
              .ok { number := number, kontogruppe := kgval, sign := some s,
                    title := clean_string t, project_id := none,
                    project_title := none, values := vals }

/-- Lines 278-283 of export.py: `ErgebnishaushaltTable._parse_row` wraps
the base row parser and back-fills a missing `kontogruppe` key with
`None` (`record.setdefault('kontogruppe', None)`). -/
def ergebnisParseRow (kg : Bool) (vcols : List VCol) (row : Row) : Except PyErr Rec :=
  (parseRowMeta kg vcols row).map fun r =>
    { r with kontogruppe := some (r.kontogruppe.getD none) }

/-! ### The base parsing loop (`Table._parse`) -/

/-- Close the current position: in the Python code the current position
object is already the last element of the table list, so "closing" just
forgets the pointer; here the accumulator holds closed positions in
reverse order and the current one is pushed onto it. -/
def flushCur (acc : List Pos) (cur : Option Pos) : List Pos :=
  match cur with
  | none => acc
  | some p => p :: acc

/-- Lines 181-209 of export.py: the row loop of `Table._parse` over
`data[2:]`.  `cur` is the Python `position` variable (`none` = `None`);
`acc` holds the closed positions in reverse order.  A row with no values
is dropped and resets `position`; a row with a truthy `number` starts a
new position unless its `sign` is empty (warned and dropped, resetting
`position`); any other row must have an empty `sign`
(`assert not record['sign']`) and is appended to the current position's
children; if no position is open this is the Python
`None.children` `AttributeError`. -/
def parseGo (pr : Row → Except PyErr Rec) (vcols : List VCol) :
    List Row → Option Pos → List Pos → Except PyErr (List Pos)
  | [], cur, acc => .ok (flushCur acc cur).reverse
  | row :: rest, cur, acc =>
    match doesRowHaveValues vcols row with
    | .error e => .error e
    | .ok false => parseGo pr vcols rest none (flushCur acc cur)
    | .ok true =>
      match pr row with
      | .error e => .error e
      | .ok r =>
        if truthyN r.number then
          if truthyS r.sign then
            parseGo pr vcols rest (some { record := r, children := [] }) (flushCur acc cur)
          else
            parseGo pr vcols rest none (flushCur acc cur)
        else
          if truthyS r.sign then .error .assertionError
          else
            match cur with
            | none => .error .attributeError
            | some p =>
              parseGo pr vcols rest (some { p with children := p.children ++ [r] }) acc

/-- Fixed label of the optional `kontogruppe` header column
(`ErgebnishaushaltTable._KONTOGRUPPE_HEADER`). -/
def ergKGHeader : String := "Kto.\nGr."

/-- Lines 262-283 of export.py: parse of an `ErgebnishaushaltTable`:
the `kontogruppe` column exists iff `header[1]` equals the fixed label;
meta columns are `number`, (optionally `kontogruppe`,) `sign`, `title`;
rows 2+ are parsed by the base loop with the back-filling row parser. -/
def ergParse (data : Grid) : Except PyErr (List Pos) :=
  match data with
  | [] => .error .indexError
  | header :: rest =>
    match cellAt header 1 with
    | .error e => .error e
    | .ok c1 =>
      let kg := decide (c1 = ergKGHeader)
      let vcols := parseValueHeaders (if kg then 4 else 3) header
      parseGo (ergebnisParseRow kg vcols) vcols (rest.drop 1) none []

/-- Lines 286-293 of export.py: parse of a `FinanzhaushaltTable` (fixed
`number` / `sign` / `title` meta columns, no `kontogruppe`). -/
def finanzParse (data : Grid) : Except PyErr (List Pos) :=
  match data with
  | [] => .error .indexError
  | header :: rest =>
    let vcols := parseValueHeaders 3 header
    parseGo (parseRowMeta false vcols) vcols (rest.drop 1) none []

/-! ### Investment-overview parsing (`InvestitionsuebersichtTable`) -/

/-- Test of `len(set(row)) == 1`: the row is nonempty and all its cells
hold the identical text. -/
def isMarkerRow (row : Row) : Bool :=
  match row with
  | [] => false
  | c :: cs => cs.all (fun x => decide (x = c))

/-- In-place update of the element at index `i` (no-op when out of
range), modelling mutation of a list element through an alias. -/
def modifyAt {α : Type} (l : List α) (i : Nat) (f : α → α) : List α :=
  match l.get? i with
  | some a => l.set i (f a)
  | none => l

/-- Append a position under a project (`project['positions'].append`). -/
def addPosition (proj : Project) (r : Rec) : Project :=
  { proj with positions := proj.positions ++ [{ record := r, children := [] }] }

/-- Append a child to the project's last position (the Python `position`
variable aliases the last position appended to that project). -/
def addChildLast (proj : Project) (r : Rec) : Project :=
  { proj with positions := (modifyAt proj.positions (proj.positions.length - 1)
      (fun p => { p with children := p.children ++ [r] })) }

/-- Lines 309-334 of export.py: `InvestitionsuebersichtTable._parse_body`.
`acc` is the table's project list (`self`); `hasProj` says whether the
Python `project` variable is non-`None` (it then aliases the last project
of `acc`); `posIdx` gives the index of the project whose last position
the Python `position` variable aliases (`none` = `None`; note the marker
row does not reset it).  Marker rows (all cells identical) open a new
project from `"<id>: <title>"` (`IndexError` when the colon is missing);
standard rows with a truthy `number` must satisfy
`assert record['sign']` and start a position under the current project;
other standard rows must satisfy `assert not record.pop('sign')` and
`assert not record.pop('kontogruppe', None)` (both keys are removed) and
are appended to the current position's children. -/
def investBody (pr : Row → Except PyErr Rec) :
    List Row → List Project → Bool → Option Nat → Except PyErr (List Project)
  | [], acc, _, _ => .ok acc
  | row :: rest, acc, hasProj, posIdx =>
    if isMarkerRow row then
      match row with
      | [] => .error .indexError
      | c :: _ =>
        match splitColon1 c with
        | [pid, ptitle] =>
          investBody pr rest
            (acc ++ [{ id := pyStrip pid, title := pyStrip ptitle, positions := [] }])
            true posIdx
        | _ => .error .indexError
    else
      match pr row with
      | .error e => .error e
      | .ok r =>
        if truthyN r.number then
          if ¬ truthyS r.sign then .error .assertionError
          else if hasProj then
            investBody pr rest
              (modifyAt acc (acc.length - 1) (fun proj => addPosition proj r))
              true (some (acc.length - 1))
          else .error .attributeError
        else
          if truthyS r.sign then .error .assertionError
          else if truthyKG r.kontogruppe then .error .assertionError
          else
            match posIdx with
            | none => .error .attributeError
            | some j =>
              investBody pr rest
                (modifyAt acc j (fun proj =>
                  addChildLast proj { r with sign := none, kontogruppe := none }))
                hasProj posIdx

/-- Lines 296-307 of export.py: parse of an `InvestitionsuebersichtTable`;
the value columns are also returned because `append_data` reuses them. -/
def investParse (data : Grid) : Except PyErr (List VCol × List Project) :=
  match data with
  | [] => .error .indexError
  | header :: rest =>
    let vcols := parseValueHeaders 3 header
    match investBody (parseRowMeta false vcols) (rest.drop 1) [] false none with
    | .error e => .error e
    | .ok projs => .ok (vcols, projs)

/-! ### Dispatcher (`table_from_data`) and caller (`load_word_file`) -/

/-- The three concrete table layouts. -/
inductive Layout where
  | finanz
  | invest
  | ergebnis
  deriving DecidableEq, Repr

/-- Keyword of the cash-flow layout. -/
def kwFinanz : String := "finanzhaushalt"

/-- Keyword of the investment-overview layout. -/
def kwInvest : String := "investitionsübersicht"

/-- Keyword of the income/expense layout. -/
def kwErgebnis : String := "ergebnishaushalt"

/-- Lines 370-386 of export.py: the layout decision of `table_from_data`:
case-insensitive substring search, in priority order, over `data[0][2]`
(and, for the income/expense keyword and only when the earlier tests
failed, also `data[0][3]` — short-circuit evaluation).  No match raises
`ValueError`; a missing cell raises `IndexError`. -/
def classify (data : Grid) : Except PyErr Layout :=
  match data with
  | [] => .error .indexError
  | h :: _ =>
    match h.get? 2 with
    | none => .error .indexError
    | some c2 =>
      if pyIn kwFinanz (pyLower c2) then .ok .finanz
      else if pyIn kwInvest (pyLower c2) then .ok .invest
      else if pyIn kwErgebnis (pyLower c2) then .ok .ergebnis
      else
        match h.get? 3 with
        | none => .error .indexError
        | some c3 =>
          if pyIn kwErgebnis (pyLower c3) then .ok .ergebnis
          else .error .valueError

/-- A parsed table instance (the `*Table` classes). -/
inductive Table where
  | finanz (positions : List Pos)
  | ergebnis (positions : List Pos)
  | invest (vcols : List VCol) (projects : List Project)
  deriving DecidableEq, Repr

/-- Lines 370-386 of export.py: `table_from_data` classifies and then
constructs (i.e. parses) the table; errors of either step propagate. -/
def table_from_data (data : Grid) : Except PyErr Table :=
  match classify data with
  | .error e => .error e
  | .ok .finanz => (finanzParse data).map Table.finanz
  | .ok .invest => (investParse data).map (fun p => Table.invest p.1 p.2)
  | .ok .ergebnis => (ergParse data).map Table.ergebnis

/-- Lines 336-346 of export.py: `append_data` exists only on
`InvestitionsuebersichtTable` (attribute lookup on any other table raises
`AttributeError`); it feeds the whole grid (no header rows skipped) to
`_parse_body` with fresh `project`/`position` pointers. -/
def append_data (t : Table) (data : Grid) : Except PyErr Table :=
  match t with
  | .invest vcols projs =>
    (investBody (parseRowMeta false vcols) data projs false none).map (Table.invest vcols)
  | _ => .error .attributeError

/-- Lines 481-496 of export.py: the per-table step of `load_word_file`
(heading tagging aside): a successfully built table is appended to the
table list; a `ValueError` makes the caller route the grid to
`tables[-1].append_data` (`IndexError` when the list is empty); any other
error propagates. -/
def loadStep (tables : List Table) (data : Grid) : Except PyErr (List Table) :=
  match table_from_data data with
  | .ok t => .ok (tables ++ [t])
  | .error .valueError =>
    match tables.getLast? with
    | none => .error .indexError
    | some t =>
      match append_data t data with
      | .error e => .error e
      | .ok t2 => .ok (tables.dropLast ++ [t2])
  | .error e => .error e

/-! ### Heading state machine (`_HeadingState`) -/

/-- A Produktgruppe entry. -/
structure PGruppe where
  id : String
  title : String
  deriving DecidableEq, Repr

/-- A Produktbereich entry with its Produktgruppe map. -/
structure PBereich where
  id : String
  title : String
  produktgruppen : List (String × PGruppe)
  deriving DecidableEq, Repr

/-- A Teilhaushalt entry with its Produktbereich map. -/
structure THaushalt where
  id : String
  title : String
  produktbereiche : List (String × PBereich)
  deriving DecidableEq, Repr

/-- State of `_HeadingState`.  Python dictionaries are insertion-ordered
association lists; the three scope pointers are modelled by the key of
the entry they alias (aliasing makes nested `setdefault` updates visible
inside `teilhaushalte`). -/
structure HeadingState where
  teilhaushalte : List (String × THaushalt)
  teilhaushalt : Option String
  produktbereich : Option String
  produktgruppe : Option String
  deriving DecidableEq, Repr

/-- Lookup in an insertion-ordered association list. -/
def lookupA {α : Type} (m : List (String × α)) (k : String) : Option α :=
  match m with
  | [] => none
  | (k2, v) :: rest => if k2 = k then some v else lookupA rest k

/-- Python `dict.setdefault(k, v)`: keep an existing entry (and its
value) untouched, else append the new entry at the end. -/
def setdefaultA {α : Type} (m : List (String × α)) (k : String) (v : α) : List (String × α) :=
  match lookupA m k with
  | some _ => m
  | none => m ++ [(k, v)]

/-- Update the value stored under key `k` in place (no-op when the key is
missing), modelling mutation of a dict entry through an alias. -/
def updateA {α : Type} (m : List (String × α)) (k : String) (f : α → α) : List (String × α) :=
  m.map (fun kv => if kv.1 = k then (kv.1, f kv.2) else kv)

/-- Python `id.startswith('THH')`. -/
def startsWithTHH (s : String) : Bool := "THH".data.isPrefixOf s.data

/-- Python `id.isdigit()` (nonempty, all decimal digits). -/
def isDigits (s : String) : Bool := decide (s.data ≠ []) && s.data.all Char.isDigit

/-- The initial heading state (`__init__` / `reset`, with an empty
registry). -/
def initialHeadingState : HeadingState :=
  { teilhaushalte := [], teilhaushalt := none, produktbereich := none, produktgruppe := none }

/-- Lines 403-406 of export.py: `reset` clears the three scope pointers
but keeps the cross-document `teilhaushalte` registry. -/
def headingReset (st : HeadingState) : HeadingState :=
  { st with teilhaushalt := none, produktbereich := none, produktgruppe := none }

/-- Lines 408-443 of export.py: `register_heading`.  Empty (stripped)
text and text that does not split into exactly an (identifier, title)
pair are ignored.  A `THH`-prefixed identifier enters/merges a
Teilhaushalt keyed by the rest of the identifier and clears the two
finer levels; otherwise a two-digit identifier enters/merges a
Produktbereich when a Teilhaushalt is current and no Produktbereich is,
clearing the Produktgruppe level; otherwise a four-digit identifier
enters/merges a Produktgruppe when a Produktbereich is current and no
Produktgruppe is; anything else is ignored. -/
def register_heading (st : HeadingState) (text : String) : HeadingState :=
  let t := pyStrip text
  if t = "" then st
  else
    match split1 t with
    | [id0, title] =>
      if startsWithTHH id0 then
        let key := id0.drop 3
        { teilhaushalte := setdefaultA st.teilhaushalte key
            { id := key, title := title, produktbereiche := [] },
          teilhaushalt := some key, produktbereich := none, produktgruppe := none }
      else if st.teilhaushalt.isSome ∧ st.produktbereich = none
          ∧ id0.length = 2 ∧ isDigits id0 then
        match st.teilhaushalt with
        | some tk =>
          { st with
            teilhaushalte := (updateA st.teilhaushalte tk (fun thh =>
              { thh with produktbereiche := (setdefaultA thh.produktbereiche id0
                  { id := id0, title := title, produktgruppen := [] }) })),
            produktbereich := some id0, produktgruppe := none }
        | none => st
      else if st.produktbereich.isSome ∧ st.produktgruppe = none
          ∧ id0.length = 4 ∧ isDigits id0 then
        match st.teilhaushalt, st.produktbereich with
        | some tk, some pk =>
          { st with
            teilhaushalte := (updateA st.teilhaushalte tk (fun thh =>
              { thh with produktbereiche := (updateA thh.produktbereiche pk (fun pb =>
                  { pb with produktgruppen := (setdefaultA pb.produktgruppen id0
                      { id := id0, title := title }) })) })),
            produktgruppe := some id0 }
        | _, _ => st
      else st
    | _ => st

/-! ### Flattening / CSV export (`Table.dump_csv`, `_csv_records`) -/

/-- A CSV field as passed to `writer.writerow`: `None`, text, an int, or
a `Decimal` amount (in cents). -/
inductive Field where
  | none
  | str (s : String)
  | int (n : Int)
  | dec (cents : Int)
  deriving DecidableEq, Repr

/-- Field for a str-or-None value. -/
def optStrField : Option String → Field
  | Option.none => .none
  | some s => .str s

/-- Field for the year entry (`value['year']`). -/
def yearField : Option Int → Field
  | Option.none => .none
  | some y => .int y

/-- Python `record.get(key)` over the keys a record can hold (an unknown
key yields `None`). -/
def eget (r : Rec) (key : String) : Field :=
  if key = "number" then
    match r.number with
    | Option.none => .none
    | some n => .int n
  else if key = "kontogruppe" then
    match r.kontogruppe with
    | some (some s) => .str s
    | _ => .none
  else if key = "sign" then optStrField r.sign
  else if key = "title" then .str r.title
  else if key = "project_id" then optStrField r.project_id
  else if key = "project_title" then optStrField r.project_title
  else .none

/-- Python truthiness of a CSV field value. -/
def fieldTruthy : Field → Bool
  | .none => false
  | .str s => decide (s ≠ "")
  | .int n => decide (n ≠ 0)
  | .dec c => decide (c ≠ 0)

/-- Python `str()` of a field value as used by
`'{}: {}'.format(parent['title'], value)` (only title values, i.e.
strings, reach it in practice). -/
def fieldStr : Field → String
  | .none => "None"
  | .str s => s
  | .int n => toString n
  | .dec c => toString c

/-- Lines 238-246 of export.py: value of one meta column emitted by
`dump_record`: a falsy value is inherited from the parent when summaries
are not requested and a parent exists; otherwise (`elif`) the `title`
column is rendered as `"<parent title>: <value>"` under the same
conditions; otherwise the record's own value is used. -/
def metaFieldValue (includeSummaries : Bool) (r : Rec) (parent : Option Rec)
    (key : String) : Field :=
  let v := eget r key
  match parent with
  | Option.none => v
  | some p =>
    if ¬ fieldTruthy v ∧ ¬ includeSummaries then eget p key
    else if key = "title" ∧ ¬ includeSummaries then .str (p.title ++ ": " ++ fieldStr v)
    else v

/-- Lines 237-248 of export.py: `dump_record` writes one CSV row per
`values` entry: the additional columns, then the requested meta columns
(with inheritance as in `metaFieldValue`), then year, type and amount. -/
def dumpRecord (additional : List Field) (metaCols : List String)
    (includeSummaries : Bool) (r : Rec) (parent : Option Rec) : List (List Field) :=
  let fields := additional ++ metaCols.map (metaFieldValue includeSummaries r parent)
  r.values.map (fun ve => fields ++ [yearField ve.year, .str ve.vtype, .dec ve.amount])

/-- Lines 250-259 of export.py: handling of one top-level record in
`dump_csv`, as the list of emitted row-groups (one group per
`dump_record` call): a record whose `sign` is the summary marker `'='`
is skipped entirely unless summaries are requested; a record with
children yields one group per child (plus, when summaries are requested,
one leading group for the record itself); a record without children
yields exactly one group. -/
def dumpTop (additional : List Field) (metaCols : List String)
    (includeSummaries : Bool) (p : Pos) : List (List (List Field)) :=
  if p.record.sign = some "=" ∧ ¬ includeSummaries then []
  else if p.children ≠ [] then
    (if includeSummaries then [dumpRecord additional metaCols includeSummaries p.record none] else [])
      ++ p.children.map (fun c => dumpRecord additional metaCols includeSummaries c (some p.record))
  else [dumpRecord additional metaCols includeSummaries p.record none]

/-- Lines 230-259 of export.py: `dump_csv` over the records yielded by
`_csv_records`, as a list of row-groups (the flat CSV stream is their
concatenation). -/
def dump_csv (records : List Pos) (additional : List Field) (metaCols : List String)
    (includeSummaries : Bool) : List (List (List Field)) :=
  (records.map (dumpTop additional metaCols includeSummaries)).flatten

/-- Lines 348-354 of export.py: `InvestitionsuebersichtTable._csv_records`
yields, for every project in order, a copy of each position's record
extended with the project's id and title. -/
def invCsvRecords (projects : List Project) : List Pos :=
  (projects.map (fun proj => proj.positions.map (fun p =>
    { p with record := { p.record with
                         project_id := some proj.id,
                         project_title := some proj.title } }))).flatten

/-! ### Helper instances and lemmas -/

instance exceptDecEq {ε α : Type} [DecidableEq ε] [DecidableEq α] : DecidableEq (Except ε α) :=
  fun x y =>
    match x, y with
    | .ok a, .ok b =>
      match decEq a b with
      | isTrue h => isTrue (by rw [h])
      | isFalse h => isFalse (by intro hh; cases hh; exact h rfl)
    | .error a, .error b =>
      match decEq a b with
      | isTrue h => isTrue (by rw [h])
      | isFalse h => isFalse (by intro hh; cases hh; exact h rfl)
    | .ok _, .error _ => isFalse (by intro hh; cases hh)
    | .error _, .ok _ => isFalse (by intro hh; cases hh)

theorem get?_drop' {α : Type} (l : List α) (i j : Nat) :
    (l.drop i).get? j = l.get? (i + j) := by
  simp [List.get?_eq_getElem?, List.getElem?_drop]

theorem mem_modifyAt {α : Type} {P : α → Prop} {l : List α} {i : Nat} {f : α → α}
    (h : ∀ x ∈ l, P x) (hf : ∀ x ∈ l, P x → P (f x)) :
    ∀ x ∈ modifyAt l i f, P x := by
  intro x hx
  unfold modifyAt at hx
  cases hg : l.get? i with
  | none => rw [hg] at hx; exact h x hx
  | some a =>
    rw [hg] at hx
    rcases List.mem_or_eq_of_mem_set hx with hmem | heq
    · exact h x hmem
    · have ha : a ∈ l := List.get?_mem hg
      exact heq ▸ hf a ha (h a ha)

/-! ### Claim C9: numeric primitives -/

/-- C9: amount parsing follows the German decimal convention and returns
exact decimal values (represented as exact integer cents, never floating
point): `"1.234,56"` parses to `1234.56`, `"12,5"` to `12.50` and `"7"`
to `7.00`; integer parsing of the empty string yields an explicit absent
value (`none`) and never an error, while non-empty non-numeric text
raises `ValueError`, which propagates on the meta-column path (through
`parseRowMeta` and the row loop). -/
theorem claim_C9 :
    parse_amount "1.234,56" = .ok 123456 ∧
    parse_amount "12,5" = .ok 1250 ∧
    parse_amount "7" = .ok 700 ∧
    parse_int "" = .ok none ∧
    (∀ s : String, s ≠ "" → pyIntCore s = none → parse_int s = .error .valueError) ∧
    (∀ (kg : Bool) (vcols : List VCol) (c : String) (rest : Row),
      pyIntCore c = none → c ≠ "" →
      parseRowMeta kg vcols (c :: rest) = .error .valueError) ∧
    (∀ pr vcols row rest cur acc (e : PyErr), doesRowHaveValues vcols row = .ok true →
      pr row = .error e → parseGo pr vcols (row :: rest) cur acc = .error e) := by
  refine ⟨by decide, by decide, by decide, by decide, ?_, ?_, ?_⟩
  · intro s hs hcore
    simp [parse_int, hs, pyInt, hcore, Except.map]
  · intro kg vcols c rest hcore hne
    simp [parseRowMeta, cellAt, parse_int, hne, pyInt, hcore, Except.map]
  · intro pr vcols row rest cur acc e hv he
    simp [parseGo, hv, he]

/-- Witness for C9 at concrete inputs. -/
theorem claim_C9_witness :
    parse_int "abc" = .error .valueError ∧
    parseRowMeta false [] ["abc", "", ""] = .error .valueError :=
  ⟨claim_C9.2.2.2.2.1 "abc" (by decide) (by decide),
   claim_C9.2.2.2.2.2.1 false [] "abc" ["", ""] (by decide) (by decide)⟩

/-! ### Claim C10: blank value cells parse to exact zero -/

/-- C10: each value column contributes exactly one `(type, year, amount)`
entry to a parsed row's `values`, even when its cell holds the empty
string: the amount parser maps `""` to exactly `0` (at the fixed
two-decimal scale), so blank amount cells become zero amounts rather
than being omitted or raising. -/
theorem claim_C10 :
    parse_amount "" = .ok 0 ∧
    (∀ (vcols : List VCol) (row : Row) vs,
      parseValues vcols row = .ok vs → vs.length = vcols.length) ∧
    (∀ (i : Nat) (ty : String) (y : Option Int) (vcols : List VCol) (row : Row),
      row.get? i = some "" →
      parseValues ((i, ty, y) :: vcols) row =
        (parseValues vcols row).map
          (fun vs => { vtype := ty, year := y, amount := 0 } :: vs)) := by
  refine ⟨by decide, ?_, ?_⟩
  · intro vcols
    induction vcols with
    | nil =>
      intro row vs h
      unfold parseValues at h
      cases h
      rfl
    | cons hd tl ih =>
      intro row vs h
      obtain ⟨i, ty, y⟩ := hd
      unfold parseValues at h
      split at h
      · cases h
      · split at h
        · cases h
        · split at h
          · cases h
          · rename_i vs2 hr
            cases h
            simp [ih row vs2 hr]
  · intro i ty y vcols row hrow
    have h1 : cellAt row i = .ok "" := by unfold cellAt; rw [hrow]
    have h2 : parse_amount "" = .ok 0 := by decide
    simp only [parseValues, h1, h2]
    cases hr : parseValues vcols row with
    | error e => simp [hr, Except.map]
    | ok vs => simp [hr, Except.map]

/-- Witness for C10 at a concrete input (one value column, blank cell). -/
theorem claim_C10_witness :
    parseValues [(0, "T", some 2017)] [""] =
      .ok [{ vtype := "T", year := some 2017, amount := 0 }] := by
  have h := claim_C10.2.2 0 "T" (some 2017) [] [""] (by decide)
  simpa [parseValues] using h

/-! ### Claim C3: value-column decoding -/

theorem qualifyCell_eq_some {j : Nat} {cell : String} {i : Nat} {ty : String} {y : Option Int} :
    qualifyCell j cell = some (i, ty, y) ↔
      i = j ∧ ∃ a b, pySplitWs cell = [a, b, "EUR"] ∧ parse_int b = .ok y ∧ ty = clean_string a := by
  unfold qualifyCell
  constructor
  · intro h
    split at h
    · rename_i a b c hsplit
      split at h
      · rename_i hc
        subst hc
        split at h
        · rename_i yy hy
          cases h
          exact ⟨rfl, a, b, hsplit, hy, rfl⟩
        · cases h
      · cases h
    · cases h
  · rintro ⟨rfl, a, b, hsplit, hy, rfl⟩
    rw [hsplit]
    simp [hy]

theorem mem_parseValueHeadersAux {v : VCol} :
    ∀ (i : Nat) (cells : List String),
      v ∈ parseValueHeadersAux i cells ↔
        ∃ k cell, cells.get? k = some cell ∧ qualifyCell (i + k) cell = some v := by
  intro i cells
  induction cells generalizing i with
  | nil => simp [parseValueHeadersAux]
  | cons c cs ih =>
    unfold parseValueHeadersAux
    cases hq : qualifyCell i c with
    | some w =>
      simp only [List.mem_cons, ih (i + 1)]
      constructor
      · rintro (rfl | ⟨k, cell, hk, hqc⟩)
        · exact ⟨0, c, by simp, by simpa using hq⟩
        · refine ⟨k + 1, cell, by simpa using hk, ?_⟩
          rw [show i + (k + 1) = i + 1 + k by omega]
          exact hqc
      · rintro ⟨k, cell, hk, hqc⟩
        cases k with
        | zero =>
          left
          simp only [List.get?_cons_zero, Option.some.injEq] at hk
          subst hk
          rw [Nat.add_zero, hq] at hqc
          exact (Option.some.inj hqc).symm
        | succ k =>
          right
          refine ⟨k, cell, by simpa using hk, ?_⟩
          rw [show i + 1 + k = i + (k + 1) by omega]
          exact hqc
    | none =>
      simp only [ih (i + 1)]
      constructor
      · rintro ⟨k, cell, hk, hqc⟩
        refine ⟨k + 1, cell, by simpa using hk, ?_⟩
        rw [show i + (k + 1) = i + 1 + k by omega]
        exact hqc
      · rintro ⟨k, cell, hk, hqc⟩
        cases k with
        | zero =>
          simp only [List.get?_cons_zero, Option.some.injEq] at hk
          subst hk
          rw [Nat.add_zero, hq] at hqc
          cases hqc
        | succ k =>
          refine ⟨k, cell, by simpa using hk, ?_⟩
          rw [show i + 1 + k = i + (k + 1) by omega]
          exact hqc

/-- C3 (amended): the value-column map contains exactly those cells after
the meta columns whose text splits on whitespace into exactly three
tokens with the third equal to `"EUR"` and the second parsing as an
integer year; a cell whose second token is not an integer is silently
skipped with no error; and if zero value columns are produced, the data
row loop still proceeds without error, but every data row is then
considered to have no values and is dropped, so the income/expense and
cash-flow layouts yield a table with no Positions (rather than the
Positions with empty `values` the original claim describes). -/
theorem claim_C3 :
    (∀ (numMeta : Nat) (header : Row) (i : Nat) (ty : String) (y : Option Int),
      ((i, ty, y) ∈ parseValueHeaders numMeta header ↔
        ∃ cell a b, numMeta ≤ i ∧ header.get? i = some cell ∧
          pySplitWs cell = [a, b, "EUR"] ∧ parse_int b = .ok y ∧ ty = clean_string a)) ∧
    (∀ (i : Nat) (cell : String) (rest : List String) (a b : String) (e : PyErr),
      pySplitWs cell = [a, b, "EUR"] → parse_int b = .error e →
      parseValueHeadersAux i (cell :: rest) = parseValueHeadersAux (i + 1) rest) ∧
    (∀ pr (rows : List Row) cur acc,
      parseGo pr [] rows cur acc = .ok (flushCur acc cur).reverse) := by
  refine ⟨?_, ?_, ?_⟩
  · intro numMeta header i ty y
    unfold parseValueHeaders
    rw [mem_parseValueHeadersAux]
    constructor
    · rintro ⟨k, cell, hk, hqc⟩
      rw [get?_drop'] at hk
      rcases qualifyCell_eq_some.1 hqc with ⟨rfl, a, b, hsplit, hy, rfl⟩
      exact ⟨cell, a, b, by omega, hk, hsplit, hy, rfl⟩
    · rintro ⟨cell, a, b, hle, hcell, hsplit, hy, rfl⟩
      refine ⟨i - numMeta, cell, ?_, ?_⟩
      · rw [get?_drop', show numMeta + (i - numMeta) = i by omega]
        exact hcell
      · exact qualifyCell_eq_some.2 ⟨by omega, a, b, hsplit, hy, rfl⟩
  · intro i cell rest a b e hsplit hy
    have hq : qualifyCell i cell = none := by
      unfold qualifyCell
      rw [hsplit]
      simp [hy]
    conv_lhs => rw [parseValueHeadersAux.eq_def]
    dsimp only
    rw [hq]
  · intro pr rows
    induction rows with
    | nil => intro cur acc; rfl
    | cons row rest ih =>
      intro cur acc
      unfold parseGo
      rw [show doesRowHaveValues [] row = .ok false from rfl]
      rw [ih none (flushCur acc cur)]
      rfl

/-- Witness for C3 at concrete inputs: a real header with one decorative
cell, one malformed year cell and one value column, and a grid with no
value columns whose data rows are all dropped. -/
theorem claim_C3_witness :
    ((4, "Ansatz", (some 2017 : Option Int)) ∈ parseValueHeaders 3
      ["Nr", "", "Titel", "dekorativ", "Ansatz 2017 EUR"]) ∧
    parseValueHeadersAux 3 ["Plan abc EUR", "Ansatz 2017 EUR"] =
      parseValueHeadersAux 4 ["Ansatz 2017 EUR"] ∧
    parseGo (parseRowMeta false []) [] [["1", "+", "T", ""]] none [] = .ok [] := by
  refine ⟨?_, ?_, ?_⟩
  · exact (claim_C3.1 3 ["Nr", "", "Titel", "dekorativ", "Ansatz 2017 EUR"] 4 "Ansatz"
      (some 2017)).2 ⟨"Ansatz 2017 EUR", "Ansatz", "2017", by omega, by decide, by decide,
        by decide, by decide⟩
  · exact claim_C3.2.1 3 "Plan abc EUR" ["Ansatz 2017 EUR"] "Plan" "abc" .valueError
      (by decide) (by decide)
  · exact claim_C3.2.2 (parseRowMeta false []) [["1", "+", "T", ""]] none []

/-- Counterexample to C3 as stated: a cash-flow grid whose header yields
zero value columns and whose single data row carries a number, a sign and
a title.  The claim says parsing "produces Positions with empty values";
in fact the parse succeeds with no Positions at all, because with zero
value columns `_does_row_have_values` is false for every row and every
data row is dropped. -/
theorem claim_C3_counterexample :
    parseValueHeaders 3 ["", "", "Finanzhaushalt", ""] = [] ∧
    finanzParse [["", "", "Finanzhaushalt", ""], [], ["1", "+", "T", ""]] = .ok [] := by
  exact ⟨rfl, rfl⟩

/-! ### Claim C2: summary skipping and row-group emission -/

/-- C2: flattening with summaries excluded skips entirely any top-level
record whose `sign` is the summary marker `'='`; a Position with
children yields exactly one row-group per child and none for the
Position itself; a Position without children yields exactly one
row-group; with summaries requested a Position with children is
additionally emitted as its own row-group before its children.
`dump_csv` concatenates the per-record groups. -/
theorem claim_C2 :
    (∀ (add : List Field) (mc : List String) (p : Pos),
      p.record.sign = some "=" → dumpTop add mc false p = []) ∧
    (∀ (add : List Field) (mc : List String) (p : Pos),
      p.record.sign ≠ some "=" → p.children ≠ [] →
      dumpTop add mc false p =
        p.children.map (fun c => dumpRecord add mc false c (some p.record)) ∧
      (dumpTop add mc false p).length = p.children.length) ∧
    (∀ (add : List Field) (mc : List String) (p : Pos),
      p.record.sign ≠ some "=" → p.children = [] →
      dumpTop add mc false p = [dumpRecord add mc false p.record none]) ∧
    (∀ (add : List Field) (mc : List String) (p : Pos),
      p.children ≠ [] →
      dumpTop add mc true p =
        dumpRecord add mc true p.record none ::
          p.children.map (fun c => dumpRecord add mc true c (some p.record))) ∧
    (∀ (records : List Pos) (add : List Field) (mc : List String) (incl : Bool),
      dump_csv records add mc incl = (records.map (dumpTop add mc incl)).flatten) := by
  refine ⟨?_, ?_, ?_, ?_, ?_⟩
  · intro add mc p hs
    simp [dumpTop, hs]
  · intro add mc p hs hc
    constructor
    · simp [dumpTop, hs, hc]
    · simp [dumpTop, hs, hc]
  · intro add mc p hs hc
    simp [dumpTop, hs, hc]
  · intro add mc p hc
    simp [dumpTop, hc]
  · intro records add mc incl
    rfl

/-- Witness for C2 at concrete positions. -/
theorem claim_C2_witness :
    dumpTop [] ["title"] false
      { record := { number := some 9, kontogruppe := none, sign := some "=",
                    title := "Summe", project_id := none, project_title := none,
                    values := [{ vtype := "Ansatz", year := some 2017, amount := 100 }] },
        children := [] } = [] ∧
    dumpTop [] ["title"] false
      { record := { number := some 1, kontogruppe := none, sign := some "+",
                    title := "P", project_id := none, project_title := none,
                    values := [{ vtype := "Ansatz", year := some 2017, amount := 100 }] },
        children := [{ number := none, kontogruppe := none, sign := some "",
                       title := "U", project_id := none, project_title := none,
                       values := [{ vtype := "Ansatz", year := some 2017, amount := 100 }] }] }
      = [dumpRecord [] ["title"] false
          { number := none, kontogruppe := none, sign := some "",
            title := "U", project_id := none, project_title := none,
            values := [{ vtype := "Ansatz", year := some 2017, amount := 100 }] }
          (some { number := some 1, kontogruppe := none, sign := some "+",
                  title := "P", project_id := none, project_title := none,
                  values := [{ vtype := "Ansatz", year := some 2017, amount := 100 }] })] := by
  constructor
  · exact claim_C2.1 [] ["title"] _ rfl
  · exact (claim_C2.2.1 [] ["title"] _ (by decide) (by decide)).1

/-! ### Claim C6: meta-field inheritance for children -/

/-- Example parent record for C6. -/
def c6parent : Rec :=
  { number := some 1, kontogruppe := none, sign := some "+", title := "P",
    project_id := none, project_title := none,
    values := [{ vtype := "Ansatz", year := some 2017, amount := 500 }] }

/-- Example child record with a blank title for C6. -/
def c6blankChild : Rec :=
  { number := none, kontogruppe := none, sign := some "", title := "",
    project_id := none, project_title := none,
    values := [{ vtype := "Ansatz", year := some 2017, amount := 500 }] }

/-- Example child record with a non-blank title for C6. -/
def c6titledChild : Rec :=
  { number := none, kontogruppe := none, sign := some "", title := "U",
    project_id := none, project_title := none,
    values := [{ vtype := "Ansatz", year := some 2017, amount := 500 }] }

/-- Counterexample to C6 as stated: a child whose own title is blank.
The claim says the title field is rendered as
`"<parent title>: <child title>"` rather than a plain substitution; in
fact a blank child title takes the first (inheritance) branch and the
emitted title field is the parent's title `"P"` verbatim, not `"P: "`. -/
theorem claim_C6_counterexample :
    dumpTop [] ["title"] false { record := c6parent, children := [c6blankChild] } =
      [[[Field.str "P", Field.int 2017, Field.str "Ansatz", Field.dec 500]]] ∧
    Field.str "P" ≠ Field.str ("P" ++ ": " ++ "") := by
  exact ⟨rfl, by decide⟩

/-- C6 (amended): when flattening with summaries not requested, each
emitted meta field that is blank or absent on the child is substituted by
the parent's value for that field (a blank title included, which thus
receives the parent's title verbatim); a child title that is non-blank is
rendered as `"<parent title>: <child title>"` rather than a plain
substitution; and `dumpRecord` emits exactly these per-key values before
the year/type/amount columns of every value row. -/
theorem claim_C6 :
    (∀ (r p : Rec) (key : String), fieldTruthy (eget r key) = false →
      metaFieldValue false r (some p) key = eget p key) ∧
    (∀ (r p : Rec), fieldTruthy (eget r "title") = true →
      metaFieldValue false r (some p) "title" = .str (p.title ++ ": " ++ r.title)) ∧
    (∀ (add : List Field) (mc : List String) (r p : Rec),
      dumpRecord add mc false r (some p) =
        r.values.map (fun ve =>
          (add ++ mc.map (metaFieldValue false r (some p))) ++
            [yearField ve.year, .str ve.vtype, .dec ve.amount])) := by
  refine ⟨?_, ?_, ?_⟩
  · intro r p key h
    simp [metaFieldValue, h]
  · intro r p h
    simp only [metaFieldValue, h]
    simp [eget, fieldStr]
  · intro add mc r p
    rfl

/-- Witness for C6 at concrete records: the blank sign of a child
inherits the parent's sign, and a non-blank child title is combined with
the parent's. -/
theorem claim_C6_witness :
    metaFieldValue false c6blankChild (some c6parent) "sign" = Field.str "+" ∧
    metaFieldValue false c6titledChild (some c6parent) "title" = Field.str "P: U" := by
  constructor
  · exact (claim_C6.1 c6blankChild c6parent "sign" (by decide)).trans (by decide)
  · exact (claim_C6.2.1 c6titledChild c6parent (by decide)).trans (by decide)

/-! ### Claim C8: the optional kontogruppe column -/

theorem cellAt_ok {row : Row} {i : Nat} {c : String} :
    cellAt row i = .ok c ↔ row.get? i = some c := by
  unfold cellAt
  cases h : row.get? i <;> simp

/-- Counterexample to C8 as stated: the claim says the stored
`kontogruppe` values are integers or absent.  The column has no
transform (`('kontogruppe', None)`), so the raw cell text is stored: a
row whose kontogruppe cell holds the non-numeric text `"abc"` parses
successfully and stores the text verbatim, where integer parsing would
have raised `ValueError`. -/
theorem claim_C8_counterexample :
    ergebnisParseRow true [] ["1", "abc", "+", "T"] =
      .ok { number := some 1, kontogruppe := some (some "abc"), sign := some "+",
            title := "T", project_id := none, project_title := none, values := [] } ∧
    pyIntCore "abc" = none := by
  exact ⟨rfl, rfl⟩

/-- C8 (amended): in the income/expense layout the `kontogruppe` meta
column exists only when the column-1 header text equals the fixed label
`"Kto.\nGr."` — otherwise the sign and title columns shift left by one;
its stored values are the raw cell text (not parsed, possibly empty);
and after parsing every record has a `kontogruppe` field, back-filled
with the explicit absent marker `None` in the no-such-column case, so
the layout's records have a uniform field set. -/
theorem claim_C8 :
    (∀ (header : Row) (rest : List Row), header.get? 1 = some ergKGHeader →
      ergParse (header :: rest) =
        parseGo (ergebnisParseRow true (parseValueHeaders 4 header))
          (parseValueHeaders 4 header) (rest.drop 1) none []) ∧
    (∀ (header : Row) (rest : List Row) (c1 : String),
      header.get? 1 = some c1 → c1 ≠ ergKGHeader →
      ergParse (header :: rest) =
        parseGo (ergebnisParseRow false (parseValueHeaders 3 header))
          (parseValueHeaders 3 header) (rest.drop 1) none []) ∧
    (∀ (vcols : List VCol) (row : Row) (r : Rec),
      ergebnisParseRow true vcols row = .ok r →
      ∃ c1 c2 c3, row.get? 1 = some c1 ∧ row.get? 2 = some c2 ∧ row.get? 3 = some c3 ∧
        r.kontogruppe = some (some c1) ∧ r.sign = some c2 ∧ r.title = clean_string c3) ∧
    (∀ (vcols : List VCol) (row : Row) (r : Rec),
      ergebnisParseRow false vcols row = .ok r →
      ∃ c1 c2, row.get? 1 = some c1 ∧ row.get? 2 = some c2 ∧
        r.kontogruppe = some none ∧ r.sign = some c1 ∧ r.title = clean_string c2) ∧
    (∀ (kg : Bool) (vcols : List VCol) (row : Row) (r : Rec),
      ergebnisParseRow kg vcols row = .ok r → r.kontogruppe.isSome = true) := by
  refine ⟨?_, ?_, ?_, ?_, ?_⟩
  · intro header rest h1
    unfold ergParse
    dsimp only
    rw [cellAt_ok.2 h1]
    simp
  · intro header rest c1 h1 hne
    unfold ergParse
    dsimp only
    rw [cellAt_ok.2 h1]
    simp [hne]
  · intro vcols row r h
    unfold ergebnisParseRow at h
    cases hm : parseRowMeta true vcols row with
    | error e => rw [hm] at h; cases h
    | ok r0 =>
      rw [hm] at h
      simp only [Except.map, Except.ok.injEq] at h
      subst h
      simp only [parseRowMeta] at hm
      split at hm
      · cases hm
      · rename_i c0 hc0
        split at hm
        · cases hm
        · rename_i num hnum
          split at hm
          · cases hm
          · rename_i kgv hkgv
            split at hm
            · cases hm
            · rename_i c2 hc2
              split at hm
              · cases hm
              · rename_i c3 hc3
                split at hm
                · cases hm
                · rename_i vals hvals
                  cases hm
                  revert hkgv
                  cases hk : cellAt row 1 with
                  | error e => intro hkgv; simp [Except.map] at hkgv
                  | ok c1 =>
                    intro hkgv
                    simp only [Except.map, if_true, Except.ok.injEq] at hkgv
                    subst hkgv
                    refine ⟨c1, c2, c3, cellAt_ok.1 hk, ?_, ?_, rfl, rfl, rfl⟩
                    · exact cellAt_ok.1 (by simpa using hc2)
                    · exact cellAt_ok.1 (by simpa using hc3)
  · intro vcols row r h
    unfold ergebnisParseRow at h
    cases hm : parseRowMeta false vcols row with
    | error e => rw [hm] at h; cases h
    | ok r0 =>
      rw [hm] at h
      simp only [Except.map, Except.ok.injEq] at h
      subst h
      simp only [parseRowMeta, Bool.false_eq_true, if_false] at hm
      split at hm
      · cases hm
      · rename_i c0 hc0
        split at hm
        · cases hm
        · rename_i num hnum
          split at hm
          · cases hm
          · rename_i c1 hc1
            split at hm
            · cases hm
            · rename_i c2 hc2
              split at hm
              · cases hm
              · rename_i vals hvals
                cases hm
                refine ⟨c1, c2, ?_, ?_, rfl, rfl, rfl⟩
                · exact cellAt_ok.1 (by simpa using hc1)
                · exact cellAt_ok.1 (by simpa using hc2)
  · intro kg vcols row r h
    unfold ergebnisParseRow at h
    cases hm : parseRowMeta kg vcols row with
    | error e => rw [hm] at h; cases h
    | ok r0 =>
      rw [hm] at h
      simp only [Except.map, Except.ok.injEq] at h
      subst h
      rfl

/-- Witness for C8 at concrete inputs: a header carrying the fixed label
selects the four-column meta layout, and a parsed no-column record has
the back-filled absent `kontogruppe`. -/
theorem claim_C8_witness :
    ergParse [["Nr", "Kto.\nGr.", "S", "T"], []] =
      parseGo (ergebnisParseRow true (parseValueHeaders 4 ["Nr", "Kto.\nGr.", "S", "T"]))
        (parseValueHeaders 4 ["Nr", "Kto.\nGr.", "S", "T"]) [] none [] ∧
    ({ number := some 1, kontogruppe := some none, sign := some "+", title := "Titel",
       project_id := none, project_title := none, values := [] } : Rec).kontogruppe.isSome
      = true := by
  constructor
  · exact claim_C8.1 ["Nr", "Kto.\nGr.", "S", "T"] [[]] rfl
  · exact claim_C8.2.2.2.2 false [] ["1", "+", "Titel"]
      { number := some 1, kontogruppe := some none, sign := some "+", title := "Titel",
        project_id := none, project_title := none, values := [] } rfl

/-! ### Claim C7: tolerated malformed rows in the base layouts -/

/-- C7: in the income/expense and cash-flow parsers (the shared base
loop), a data row with no populated value columns is dropped and resets
the current-position pointer, so it is never attached as a child; a
number-less row following such a reset cannot attach to the pre-existing
Position (the parse fails on it instead of attaching); and a row with a
truthy number but an empty sign is dropped — with a logged warning, not
modelled — resetting the pointer, rather than raising. -/
theorem claim_C7 :
    (∀ pr (vcols : List VCol) (row : Row) rest cur acc,
      doesRowHaveValues vcols row = .ok false →
      parseGo pr vcols (row :: rest) cur acc = parseGo pr vcols rest none (flushCur acc cur)) ∧
    (∀ pr (vcols : List VCol) (row : Row) rest acc (r : Rec),
      doesRowHaveValues vcols row = .ok true → pr row = .ok r →
      truthyN r.number = false → truthyS r.sign = false →
      parseGo pr vcols (row :: rest) none acc = .error .attributeError) ∧
    (∀ pr (vcols : List VCol) (row : Row) rest cur acc (r : Rec),
      doesRowHaveValues vcols row = .ok true → pr row = .ok r →
      truthyN r.number = true → truthyS r.sign = false →
      parseGo pr vcols (row :: rest) cur acc = parseGo pr vcols rest none (flushCur acc cur)) := by
  refine ⟨?_, ?_, ?_⟩
  · intro pr vcols row rest cur acc hv
    simp [parseGo, hv]
  · intro pr vcols row rest acc r hv hr hn hs
    simp [parseGo, hv, hr, hn, hs]
  · intro pr vcols row rest cur acc r hv hr hn hs
    simp [parseGo, hv, hr, hn, hs]

/-- Witness for C7: a no-values row followed by a child row makes the
parse fail rather than attaching to the pre-existing Position, and a
number-with-empty-sign row is dropped without error. -/
theorem claim_C7_witness :
    parseGo (parseRowMeta false [(3, "Ansatz", some 2017)]) [(3, "Ansatz", some 2017)]
      [["", "", "", ""], ["", "", "T", "5"]] none [] = .error .attributeError ∧
    parseGo (parseRowMeta false [(3, "Ansatz", some 2017)]) [(3, "Ansatz", some 2017)]
      [["1", "", "T", "5"]] none [] = .ok [] := by
  constructor
  · have h1 := claim_C7.1 (parseRowMeta false [(3, "Ansatz", some 2017)])
      [(3, "Ansatz", some 2017)] ["", "", "", ""] [["", "", "T", "5"]] none [] (by decide)
    have h2 := claim_C7.2.1 (parseRowMeta false [(3, "Ansatz", some 2017)])
      [(3, "Ansatz", some 2017)] ["", "", "T", "5"] [] []
      { number := none, kontogruppe := none, sign := some "", title := "T",
        project_id := none, project_title := none,
        values := [{ vtype := "Ansatz", year := some 2017, amount := 500 }] }
      (by decide) (by decide) (by decide) (by decide)
    exact h1.trans h2
  · have h3 := claim_C7.2.2 (parseRowMeta false [(3, "Ansatz", some 2017)])
      [(3, "Ansatz", some 2017)] ["1", "", "T", "5"] [] none []
      { number := some 1, kontogruppe := none, sign := some "", title := "T",
        project_id := none, project_title := none,
        values := [{ vtype := "Ansatz", year := some 2017, amount := 500 }] }
      (by decide) (by decide) (by decide) (by decide)
    exact h3.trans (by rfl)

/-! ### Claim C5: the heading state machine -/

theorem register_heading_not_pair (st : HeadingState) (text : String)
    (hlen : (split1 (pyStrip text)).length ≠ 2) :
    register_heading st text = st := by
  by_cases ht : pyStrip text = ""
  · simp [register_heading, ht]
  · simp only [register_heading, if_neg ht]
    split
    · rename_i id0 title heq
      exact (hlen (by rw [heq]; rfl)).elim
    · rfl

theorem register_heading_thh (st : HeadingState) (text id0 title : String)
    (ht : pyStrip text ≠ "") (hs : split1 (pyStrip text) = [id0, title])
    (hthh : startsWithTHH id0 = true) :
    register_heading st text =
      { teilhaushalte := setdefaultA st.teilhaushalte (id0.drop 3)
          { id := id0.drop 3, title := title, produktbereiche := [] },
        teilhaushalt := some (id0.drop 3), produktbereich := none,
        produktgruppe := none } := by
  simp only [register_heading, if_neg ht]
  rw [hs]
  simp [hthh]

theorem register_heading_pb (st : HeadingState) (text id0 title tk : String)
    (ht : pyStrip text ≠ "") (hs : split1 (pyStrip text) = [id0, title])
    (hthh : startsWithTHH id0 = false) (htk : st.teilhaushalt = some tk)
    (hpb : st.produktbereich = none) (hlen : id0.length = 2) (hdig : isDigits id0 = true) :
    register_heading st text =
      { st with
        teilhaushalte := (updateA st.teilhaushalte tk (fun thh =>
          { thh with produktbereiche := (setdefaultA thh.produktbereiche id0
              { id := id0, title := title, produktgruppen := [] }) })),
        produktbereich := some id0, produktgruppe := none } := by
  simp only [register_heading, if_neg ht]
  rw [hs]
  simp [hthh, htk, hpb, hlen, hdig]

theorem register_heading_pb_blocked (st : HeadingState) (text id0 title : String)
    (ht : pyStrip text ≠ "") (hs : split1 (pyStrip text) = [id0, title])
    (hthh : startsWithTHH id0 = false) (hlen : id0.length = 2)
    (hblock : st.teilhaushalt = none ∨ st.produktbereich ≠ none) :
    register_heading st text = st := by
  simp only [register_heading, if_neg ht]
  rw [hs]
  rcases hblock with hb | hb
  · simp [hthh, hb, hlen]
  · simp [hthh, hb, hlen]

theorem register_heading_pg (st : HeadingState) (text id0 title tk pk : String)
    (ht : pyStrip text ≠ "") (hs : split1 (pyStrip text) = [id0, title])
    (hthh : startsWithTHH id0 = false) (htk : st.teilhaushalt = some tk)
    (hpk : st.produktbereich = some pk) (hpg : st.produktgruppe = none)
    (hlen : id0.length = 4) (hdig : isDigits id0 = true) :
    register_heading st text =
      { st with
        teilhaushalte := (updateA st.teilhaushalte tk (fun thh =>
          { thh with produktbereiche := (updateA thh.produktbereiche pk (fun pb =>
              { pb with produktgruppen := (setdefaultA pb.produktgruppen id0
                  { id := id0, title := title }) })) })),
        produktgruppe := some id0 } := by
  simp only [register_heading, if_neg ht]
  rw [hs]
  simp [hthh, htk, hpk, hpg, hlen, hdig]

theorem register_heading_pg_blocked (st : HeadingState) (text id0 title : String)
    (ht : pyStrip text ≠ "") (hs : split1 (pyStrip text) = [id0, title])
    (hthh : startsWithTHH id0 = false) (hlen : id0.length = 4)
    (hblock : st.produktbereich = none ∨ st.produktgruppe ≠ none) :
    register_heading st text = st := by
  simp only [register_heading, if_neg ht]
  rw [hs]
  rcases hblock with hb | hb
  · simp [hthh, hb, hlen]
  · simp [hthh, hb, hlen]

theorem register_heading_other (st : HeadingState) (text id0 title : String)
    (ht : pyStrip text ≠ "") (hs : split1 (pyStrip text) = [id0, title])
    (hthh : startsWithTHH id0 = false)
    (hrest : isDigits id0 = false ∨ (id0.length ≠ 2 ∧ id0.length ≠ 4)) :
    register_heading st text = st := by
  simp only [register_heading, if_neg ht]
  rw [hs]
  rcases hrest with hb | ⟨h2, h4⟩
  · simp [hthh, hb]
  · simp [hthh, h2, h4]

theorem setdefaultA_of_mem {α : Type} (m : List (String × α)) (k : String) (v : α)
    (h : (lookupA m k).isSome = true) : setdefaultA m k v = m := by
  unfold setdefaultA
  cases hl : lookupA m k with
  | none => rw [hl] at h; cases h
  | some w => rfl

/-- C5 (as stated): a heading that does not split into exactly an
(identifier, title) pair leaves the scope unchanged; a `THH`-prefixed
identifier enters or merges the Teilhaushalt keyed by the remaining
identifier text and clears the two finer levels, and re-entering an
already-known key neither creates a duplicate entry nor alters its
stored title (the registry is unchanged); an exactly-two-digit
identifier enters or merges a Produktbereich exactly when a Teilhaushalt
is current and no Produktbereich is current, clearing the Produktgruppe
level; an exactly-four-digit identifier enters or merges a Produktgruppe
exactly when a Produktbereich is current and no Produktgruppe is
current; every other heading is ignored. -/
theorem claim_C5 :
    (∀ (st : HeadingState) (text : String), (split1 (pyStrip text)).length ≠ 2 →
      register_heading st text = st) ∧
    (∀ (st : HeadingState) (text id0 title : String),
      pyStrip text ≠ "" → split1 (pyStrip text) = [id0, title] → startsWithTHH id0 = true →
      register_heading st text =
        { teilhaushalte := setdefaultA st.teilhaushalte (id0.drop 3)
            { id := id0.drop 3, title := title, produktbereiche := [] },
          teilhaushalt := some (id0.drop 3), produktbereich := none,
          produktgruppe := none } ∧
      ((lookupA st.teilhaushalte (id0.drop 3)).isSome = true →
        (register_heading st text).teilhaushalte = st.teilhaushalte)) ∧
    (∀ (st : HeadingState) (text id0 title tk : String),
      pyStrip text ≠ "" → split1 (pyStrip text) = [id0, title] →
      startsWithTHH id0 = false → st.teilhaushalt = some tk → st.produktbereich = none →
      id0.length = 2 → isDigits id0 = true →
      register_heading st text =
        { st with
          teilhaushalte := (updateA st.teilhaushalte tk (fun thh =>
            { thh with produktbereiche := (setdefaultA thh.produktbereiche id0
                { id := id0, title := title, produktgruppen := [] }) })),
          produktbereich := some id0, produktgruppe := none }) ∧
    (∀ (st : HeadingState) (text id0 title : String),
      pyStrip text ≠ "" → split1 (pyStrip text) = [id0, title] →
      startsWithTHH id0 = false → id0.length = 2 →
      (st.teilhaushalt = none ∨ st.produktbereich ≠ none) →
      register_heading st text = st) ∧
    (∀ (st : HeadingState) (text id0 title tk pk : String),
      pyStrip text ≠ "" → split1 (pyStrip text) = [id0, title] →
      startsWithTHH id0 = false → st.teilhaushalt = some tk →
      st.produktbereich = some pk → st.produktgruppe = none →
      id0.length = 4 → isDigits id0 = true →
      register_heading st text =
        { st with
          teilhaushalte := (updateA st.teilhaushalte tk (fun thh =>
            { thh with produktbereiche := (updateA thh.produktbereiche pk (fun pb =>
                { pb with produktgruppen := (setdefaultA pb.produktgruppen id0
                    { id := id0, title := title }) })) })),
          produktgruppe := some id0 }) ∧
    (∀ (st : HeadingState) (text id0 title : String),
      pyStrip text ≠ "" → split1 (pyStrip text) = [id0, title] →
      startsWithTHH id0 = false → id0.length = 4 →
      (st.produktbereich = none ∨ st.produktgruppe ≠ none) →
      register_heading st text = st) ∧
    (∀ (st : HeadingState) (text id0 title : String),
      pyStrip text ≠ "" → split1 (pyStrip text) = [id0, title] →
      startsWithTHH id0 = false →
      (isDigits id0 = false ∨ (id0.length ≠ 2 ∧ id0.length ≠ 4)) →
      register_heading st text = st) := by
  refine ⟨register_heading_not_pair, ?_, register_heading_pb, register_heading_pb_blocked,
    register_heading_pg, register_heading_pg_blocked, register_heading_other⟩
  intro st text id0 title ht hs hthh
  refine ⟨register_heading_thh st text id0 title ht hs hthh, ?_⟩
  intro hmem
  rw [register_heading_thh st text id0 title ht hs hthh]
  exact setdefaultA_of_mem _ _ _ hmem

/-- Witness for C5 on the specification's heading scenario. -/
theorem claim_C5_witness :
    register_heading initialHeadingState "THH01  Bildung" =
      { teilhaushalte := [("01", { id := "01", title := "Bildung", produktbereiche := [] })],
        teilhaushalt := some "01", produktbereich := none, produktgruppe := none } ∧
    register_heading
      { teilhaushalte := [("01", { id := "01", title := "Bildung", produktbereiche := [] })],
        teilhaushalt := none, produktbereich := none, produktgruppe := none }
      "99 Sonstiges" =
      { teilhaushalte := [("01", { id := "01", title := "Bildung", produktbereiche := [] })],
        teilhaushalt := none, produktbereich := none, produktgruppe := none } ∧
    register_heading initialHeadingState "Dekorative Zwischenüberschrift drei" =
      initialHeadingState := by
  refine ⟨?_, ?_, ?_⟩
  · rw [(claim_C5.2.1 initialHeadingState "THH01  Bildung" "THH01" "Bildung"
      (by decide) (by decide) (by decide)).1]
    rfl
  · exact claim_C5.2.2.2.1
      { teilhaushalte := [("01", { id := "01", title := "Bildung", produktbereiche := [] })],
        teilhaushalt := none, produktbereich := none, produktgruppe := none }
      "99 Sonstiges" "99" "Sonstiges" (by decide) (by decide) (by decide) (by decide)
      (Or.inl rfl)
  · exact claim_C5.2.2.2.2.2.2 initialHeadingState "Dekorative Zwischenüberschrift drei"
      "Dekorative" "Zwischenüberschrift drei" (by decide) (by decide) (by decide)
      (Or.inl (by decide))

/-! ### Claim C4: layout classification and the continuation fallback -/

/-- Counterexample to C4 as stated.  First input: the preceding table is
a cash-flow table and the grid is unclassifiable; the claim says the
caller appends the grid's rows to that table, but `append_data` exists
only on the investment-overview class, so the attribute lookup is a
fatal `AttributeError` and nothing is appended.  Second input: a
three-column grid matching no keyword; the claim says it fails with the
unrecognized-layout (`ValueError`) condition and is treated as a
continuation, but the classifier's access to the fourth header cell
raises `IndexError` instead, which the caller does not treat as a
continuation even though an investment table precedes. -/
theorem claim_C4_counterexample :
    loadStep [Table.finanz []] [["a", "b", "c", "d"]] = .error .attributeError ∧
    loadStep [Table.invest [] []] [["a", "b", "c"]] = .error .indexError := by
  exact ⟨rfl, rfl⟩

/-- C4 (amended): layout classification is by case-insensitive substring
search in fixed priority order — cash-flow keyword first, then
investment-overview keyword (both on header cell 2), then income/expense
keyword on header cells 2 and 3 (cell 3 is consulted, and must exist,
only when the earlier tests failed); a grid with enough header cells
matching none of them fails with the unrecognized-layout `ValueError`.
The caller treats exactly that `ValueError` as a continuation of the
immediately preceding table, routing the grid to that table's append
operation: the rows are appended when the preceding table is an
investment-overview table, while for any other layout the attribute
lookup itself is a fatal error; with no preceding table the failure is a
fatal `IndexError`. -/
theorem claim_C4 :
    (∀ (h : Row) (t : List Row) (c2 : String), h.get? 2 = some c2 →
      pyIn kwFinanz (pyLower c2) = true → classify (h :: t) = .ok .finanz) ∧
    (∀ (h : Row) (t : List Row) (c2 : String), h.get? 2 = some c2 →
      pyIn kwFinanz (pyLower c2) = false → pyIn kwInvest (pyLower c2) = true →
      classify (h :: t) = .ok .invest) ∧
    (∀ (h : Row) (t : List Row) (c2 : String), h.get? 2 = some c2 →
      pyIn kwFinanz (pyLower c2) = false → pyIn kwInvest (pyLower c2) = false →
      pyIn kwErgebnis (pyLower c2) = true → classify (h :: t) = .ok .ergebnis) ∧
    (∀ (h : Row) (t : List Row) (c2 c3 : String), h.get? 2 = some c2 → h.get? 3 = some c3 →
      pyIn kwFinanz (pyLower c2) = false → pyIn kwInvest (pyLower c2) = false →
      pyIn kwErgebnis (pyLower c2) = false → pyIn kwErgebnis (pyLower c3) = true →
      classify (h :: t) = .ok .ergebnis) ∧
    (∀ (h : Row) (t : List Row) (c2 c3 : String), h.get? 2 = some c2 → h.get? 3 = some c3 →
      pyIn kwFinanz (pyLower c2) = false → pyIn kwInvest (pyLower c2) = false →
      pyIn kwErgebnis (pyLower c2) = false → pyIn kwErgebnis (pyLower c3) = false →
      classify (h :: t) = .error .valueError) ∧
    (∀ data : Grid, classify data = .error .valueError →
      table_from_data data = .error .valueError) ∧
    (∀ data : Grid, table_from_data data = .error .valueError →
      loadStep [] data = .error .indexError) ∧
    (∀ (ts : List Table) (vcols : List VCol) (projs projs2 : List Project) (data : Grid),
      table_from_data data = .error .valueError →
      investBody (parseRowMeta false vcols) data projs false none = .ok projs2 →
      loadStep (ts ++ [Table.invest vcols projs]) data =
        .ok (ts ++ [Table.invest vcols projs2])) ∧
    (∀ (ts : List Table) (tb : Table) (data : Grid),
      table_from_data data = .error .valueError →
      (∀ vcols projs, tb ≠ Table.invest vcols projs) →
      loadStep (ts ++ [tb]) data = .error .attributeError) := by
  refine ⟨?_, ?_, ?_, ?_, ?_, ?_, ?_, ?_, ?_⟩
  · intro h t c2 h2 hfin
    unfold classify
    dsimp only
    rw [h2]
    simp [hfin]
  · intro h t c2 h2 hfin hinv
    unfold classify
    dsimp only
    rw [h2]
    simp [hfin, hinv]
  · intro h t c2 h2 hfin hinv herg
    unfold classify
    dsimp only
    rw [h2]
    simp [hfin, hinv, herg]
  · intro h t c2 c3 h2 h3 hfin hinv herg2 herg3
    unfold classify
    dsimp only
    rw [h2]
    simp only [hfin, hinv, herg2, Bool.false_eq_true, if_false]
    rw [h3]
    simp [herg3]
  · intro h t c2 c3 h2 h3 hfin hinv herg2 herg3
    unfold classify
    dsimp only
    rw [h2]
    simp only [hfin, hinv, herg2, Bool.false_eq_true, if_false]
    rw [h3]
    simp [herg3]
  · intro data h
    unfold table_from_data
    rw [h]
  · intro data h
    unfold loadStep
    rw [h]
    rfl
  · intro ts vcols projs projs2 data h hbody
    unfold loadStep
    rw [h, List.getLast?_concat]
    dsimp only [append_data]
    rw [hbody]
    simp [Except.map, List.dropLast_concat]
  · intro ts tb data h hni
    unfold loadStep
    rw [h, List.getLast?_concat]
    cases tb with
    | finanz ps => rfl
    | ergebnis ps => rfl
    | invest vcols projs => exact (hni vcols projs rfl).elim

/-- Witness for C4 at concrete inputs: a real cash-flow header, and a
headerless continuation grid appended to a preceding investment table. -/
theorem claim_C4_witness :
    classify [["", "", "Finanzhaushalt", ""]] = .ok .finanz ∧
    loadStep [Table.invest [] []] [["P2: Zwei", "P2: Zwei", "P2: Zwei", "P2: Zwei"]] =
      .ok [Table.invest [] [{ id := "P2", title := "Zwei", positions := [] }]] := by
  constructor
  · exact claim_C4.1 ["", "", "Finanzhaushalt", ""] [] "Finanzhaushalt" rfl (by decide)
  · have h := claim_C4.2.2.2.2.2.2.2.1 [] [] []
      [{ id := "P2", title := "Zwei", positions := [] }]
      [["P2: Zwei", "P2: Zwei", "P2: Zwei", "P2: Zwei"]] (by decide) (by decide)
    simpa using h

/-! ### Claim C1: the two-level alternation invariant -/

/-- Well-formedness of a child record in the base layouts: no truthy
number, no non-empty sign. -/
def goodChildBase (c : Rec) : Prop :=
  truthyN c.number = false ∧ truthyS c.sign = false

/-- Well-formedness of a position in the base layouts. -/
def goodPosBase (p : Pos) : Prop :=
  truthyN p.record.number = true ∧ truthyS p.record.sign = true ∧
    ∀ c ∈ p.children, goodChildBase c

/-- Well-formedness of a child record in the investment layout: no
truthy number, and the popped `sign` / `kontogruppe` keys are absent. -/
def goodChildInv (c : Rec) : Prop :=
  truthyN c.number = false ∧ c.sign = none ∧ c.kontogruppe = none

/-- Well-formedness of a position in the investment layout. -/
def goodPosInv (p : Pos) : Prop :=
  truthyN p.record.number = true ∧ truthyS p.record.sign = true ∧
    ∀ c ∈ p.children, goodChildInv c

/-- Well-formedness of an investment project. -/
def goodProj (proj : Project) : Prop :=
  ∀ p ∈ proj.positions, goodPosInv p

theorem flushCur_good {P : Pos → Prop} {acc : List Pos} {cur : Option Pos}
    (hacc : ∀ p ∈ acc, P p) (hcur : ∀ p, cur = some p → P p) :
    ∀ p ∈ flushCur acc cur, P p := by
  intro p hp
  cases cur with
  | none => exact hacc p hp
  | some q =>
    simp only [flushCur] at hp
    rcases List.mem_cons.mp hp with rfl | hp2
    · exact hcur p rfl
    · exact hacc p hp2

theorem parseGo_good (pr : Row → Except PyErr Rec) (vcols : List VCol) :
    ∀ (rows : List Row) (cur : Option Pos) (acc : List Pos) (ps : List Pos),
      parseGo pr vcols rows cur acc = .ok ps →
      (∀ p, cur = some p → goodPosBase p) →
      (∀ p ∈ acc, goodPosBase p) →
      ∀ p ∈ ps, goodPosBase p := by
  intro rows
  induction rows with
  | nil =>
    intro cur acc ps h hcur hacc
    unfold parseGo at h
    cases h
    intro p hp
    rw [List.mem_reverse] at hp
    exact flushCur_good hacc hcur p hp
  | cons row rest ih =>
    intro cur acc ps h hcur hacc
    unfold parseGo at h
    split at h
    · cases h
    · exact ih none (flushCur acc cur) ps h (by simp) (flushCur_good hacc hcur)
    · split at h
      · cases h
      · rename_i r hr
        split at h
        · rename_i hn
          split at h
          · rename_i hs
            refine ih _ _ ps h ?_ (flushCur_good hacc hcur)
            intro p hp
            cases hp
            exact ⟨hn, hs, by simp⟩
          · exact ih none (flushCur acc cur) ps h (by simp) (flushCur_good hacc hcur)
        · rename_i hn
          split at h
          · cases h
          · rename_i hs
            cases cur with
            | none => cases h
            | some p =>
              refine ih _ _ ps h ?_ hacc
              intro q hq
              cases hq
              obtain ⟨pn, psgn, pch⟩ := hcur p rfl
              refine ⟨pn, psgn, ?_⟩
              intro c hc
              rcases List.mem_append.mp hc with hc1 | hc2
              · exact pch c hc1
              · rw [List.mem_singleton.mp hc2]
                constructor
                · simpa using hn
                · simpa using hs

theorem investBody_good (pr : Row → Except PyErr Rec) :
    ∀ (rows : List Row) (acc : List Project) (hasProj : Bool) (posIdx : Option Nat)
      (projs : List Project),
      investBody pr rows acc hasProj posIdx = .ok projs →
      (∀ proj ∈ acc, goodProj proj) →
      ∀ proj ∈ projs, goodProj proj := by
  intro rows
  induction rows with
  | nil =>
    intro acc hasProj posIdx projs h hacc
    unfold investBody at h
    cases h
    exact hacc
  | cons row rest ih =>
    intro acc hasProj posIdx projs h hacc
    unfold investBody at h
    split at h
    · split at h
      · cases h
      · split at h
        · refine ih _ _ _ projs h ?_
          intro proj hproj
          rcases List.mem_append.mp hproj with h1 | h2
          · exact hacc proj h1
          · rw [List.mem_singleton.mp h2]
            intro p hp
            cases hp
        · cases h
    · split at h
      · cases h
      · rename_i r hr
        split at h
        · rename_i hn
          split at h
          · cases h
          · rename_i hs
            split at h
            · rename_i hasP
              refine ih _ _ _ projs h ?_
              refine mem_modifyAt hacc ?_
              intro proj hproj hgood
              intro p hp
              rcases List.mem_append.mp hp with h1 | h2
              · exact hgood p h1
              · rw [List.mem_singleton.mp h2]
                refine ⟨hn, ?_, by simp⟩
                simpa using hs
            · cases h
        · rename_i hn
          split at h
          · cases h
          · rename_i hs
            split at h
            · cases h
            · rename_i hkg
              split at h
              · cases h
              · rename_i j
                refine ih _ _ _ projs h ?_
                refine mem_modifyAt hacc ?_
                intro proj hproj hgood
                refine mem_modifyAt hgood ?_
                intro p hp hpgood
                obtain ⟨pn, psgn, pch⟩ := hpgood
                refine ⟨pn, psgn, ?_⟩
                intro c hc
                rcases List.mem_append.mp hc with h1 | h2
                · exact pch c h1
                · rw [List.mem_singleton.mp h2]
                  exact ⟨by simpa using hn, rfl, rfl⟩

/-- Counterexample to C1 as stated, on a concrete income/expense table.
Its second data row has a `number` cell (`"0"`, parsed to the present
value `0`) and a populated `kontogruppe` cell (`"42"`); the claim says a
row whose number field is present starts a new Position and that every
child record has an absent `kontogruppe` — but the parse succeeds with
that row kept as a child (Python truthiness: `0` is falsy), and the
child's `kontogruppe` holds the text `"42"`, not the absent marker. -/
theorem claim_C1_counterexample :
    ergParse [["Nr", "Kto.\nGr.", "", "Gesamtergebnishaushalt", "Ansatz 2017 EUR"], [],
        ["1", "", "+", "Pos eins", "10"], ["0", "42", "", "Unter", "5"]] =
      .ok [{ record := { number := some 1, kontogruppe := some (some ""), sign := some "+",
                         title := "Pos eins", project_id := none, project_title := none,
                         values := [{ vtype := "Ansatz", year := some 2017, amount := 1000 }] },
             children := [{ number := some 0, kontogruppe := some (some "42"),
                            sign := some "", title := "Unter", project_id := none,
                            project_title := none,
                            values := [{ vtype := "Ansatz", year := some 2017,
                                         amount := 500 }] }] }] ∧
    (some (some "42") : Option (Option String)) ≠ none ∧
    (some (0 : Int) : Option Int) ≠ none := by
  exact ⟨rfl, by decide, by decide⟩

/-- C1 (amended): for every successfully parsed table of any layout, the
data rows form a strict two-level alternation — a row whose number field
is truthy (present and non-zero) and whose sign is non-empty starts a
new Position, and a row whose number field is not truthy is attached as
a child of the most recently started Position; every emitted Position
record has a truthy number and a non-empty sign; every child record has
no truthy number and no non-empty sign (in the investment-overview
layout the child's checked-empty `sign` and `kontogruppe` entries are
additionally removed); and a child row arriving before any Position has
been opened makes the parse fail rather than being silently kept or
dropped. -/
theorem claim_C1 :
    (∀ pr (vcols : List VCol) (row : Row) rest cur acc (r : Rec),
      doesRowHaveValues vcols row = .ok true → pr row = .ok r →
      truthyN r.number = true → truthyS r.sign = true →
      parseGo pr vcols (row :: rest) cur acc =
        parseGo pr vcols rest (some { record := r, children := [] }) (flushCur acc cur)) ∧
    (∀ pr (vcols : List VCol) (row : Row) rest (p : Pos) acc (r : Rec),
      doesRowHaveValues vcols row = .ok true → pr row = .ok r →
      truthyN r.number = false → truthyS r.sign = false →
      parseGo pr vcols (row :: rest) (some p) acc =
        parseGo pr vcols rest (some { p with children := p.children ++ [r] }) acc) ∧
    (∀ pr (vcols : List VCol) (row : Row) rest acc (r : Rec),
      doesRowHaveValues vcols row = .ok true → pr row = .ok r →
      truthyN r.number = false → truthyS r.sign = false →
      parseGo pr vcols (row :: rest) none acc = .error .attributeError) ∧
    (∀ pr (vcols : List VCol) (rows : List Row) (ps : List Pos),
      parseGo pr vcols rows none [] = .ok ps →
      ∀ p ∈ ps, truthyN p.record.number = true ∧ truthyS p.record.sign = true ∧
        ∀ c ∈ p.children, truthyN c.number = false ∧ truthyS c.sign = false) ∧
    (∀ pr (rows : List Row) (projs : List Project),
      investBody pr rows [] false none = .ok projs →
      ∀ proj ∈ projs, ∀ p ∈ proj.positions,
        truthyN p.record.number = true ∧ truthyS p.record.sign = true ∧
        ∀ c ∈ p.children,
          truthyN c.number = false ∧ c.sign = none ∧ c.kontogruppe = none) ∧
    (∀ pr (row : Row) rest acc hasProj (r : Rec),
      isMarkerRow row = false → pr row = .ok r →
      truthyN r.number = false → truthyS r.sign = false → truthyKG r.kontogruppe = false →
      investBody pr (row :: rest) acc hasProj none = .error .attributeError) := by
  refine ⟨?_, ?_, ?_, ?_, ?_, ?_⟩
  · intro pr vcols row rest cur acc r hv hr hn hs
    simp [parseGo, hv, hr, hn, hs]
  · intro pr vcols row rest p acc r hv hr hn hs
    simp [parseGo, hv, hr, hn, hs]
  · intro pr vcols row rest acc r hv hr hn hs
    simp [parseGo, hv, hr, hn, hs]
  · intro pr vcols rows ps h
    exact parseGo_good pr vcols rows none [] ps h (by simp) (by simp)
  · intro pr rows projs h
    exact investBody_good pr rows [] false none projs h (by simp)
  · intro pr row rest acc hasProj r hm hr hn hs hkg
    simp [investBody, hm, hr, hn, hs, hkg]

/-- Witness for C1 at concrete inputs: in both layouts a child row with
no open Position fails the parse with the `None`-dereference error. -/
theorem claim_C1_witness :
    parseGo (parseRowMeta false [(3, "A", some 2018)]) [(3, "A", some 2018)]
      [["", "", "U", "7"]] none [] = .error .attributeError ∧
    investBody (parseRowMeta false []) [["", "", "T"]] [] false none =
      .error .attributeError := by
  constructor
  · exact claim_C1.2.2.1 (parseRowMeta false [(3, "A", some 2018)]) [(3, "A", some 2018)]
      ["", "", "U", "7"] [] []
      { number := none, kontogruppe := none, sign := some "", title := "U",
        project_id := none, project_title := none,
        values := [{ vtype := "A", year := some 2018, amount := 700 }] }
      (by decide) (by decide) (by decide) (by decide)
  · exact claim_C1.2.2.2.2.2 (parseRowMeta false []) ["", "", "T"] [] [] false
      { number := none, kontogruppe := none, sign := some "", title := "T",
        project_id := none, project_title := none, values := [] }
      (by decide) (by decide) (by decide) (by decide) (by decide)

end BudgetExport
